import Mathlib

/-!
# Verification of the CompanionAgent collaborative-canvas core

Shallow embedding of the layer store, interaction gate, action channel and
agent registry implemented in `static/js/canvas.js`, `static/js/websocket.js`
and `static/js/conversation.js`, together with theorems settling the
specification claims about them.

JavaScript `Map` objects are embedded as insertion-ordered association lists
(`Map.set` updates an existing key in place, otherwise appends at the end).
The Fabric.js rendering canvas and the DOM are external capabilities; the DOM
elements holding mermaid diagram containers are tracked explicitly because
`removeMermaidDiagram` acts on them, while path rendering is out of scope.
Messages handed to `sendCanvasAction` are collected in an `outbox` list.
-/

namespace CompanionAgent

/-- Lookup in an insertion-ordered association list (JS `Map.get`). -/
def alistLookup {β : Type} : List (String × β) → String → Option β
  | [], _ => none
  | (k, v) :: rest, key => if k = key then some v else alistLookup rest key

/-- JS `Map.has`. -/
def alistHas {β : Type} (m : List (String × β)) (key : String) : Bool :=
  (alistLookup m key).isSome

/-- JS `Map.set`: replace the value at an existing key in place, otherwise
append the binding at the end. -/
def alistSet {β : Type} : List (String × β) → String → β → List (String × β)
  | [], key, v => [(key, v)]
  | (k, w) :: rest, key, v =>
    if k = key then (k, v) :: rest else (k, w) :: alistSet rest key v

/-- A drawable object as stored in a layer of `CanvasManager.layers`:
a Fabric path (`path:created` / `addAgentDrawing`) or a mermaid diagram
record (`addMermaidDiagram`).  `otype` is the JS `obj.type` field
(`undefined` for enlivened paths is modelled as `none`, read back as
`"path"` by `getLayerInfo`); `agentTag` is `obj.data.agent` when the object
has a `data` record (mermaid records have none); `timestamp` is
`obj.data?.timestamp || 0`. `oid` is the object's identity. -/
structure DrawObj where
  oid : Nat
  otype : Option String
  agentTag : Option String
  timestamp : Nat
deriving Repr, DecidableEq

/-- The layer store: `agent_id -> layer objects` (JS `Map`). -/
abbrev LayersMap := List (String × List DrawObj)

/-- One entry of the object returned by `CanvasManager.getLayerInfo`. -/
structure LayerEntryInfo where
  object_count : Nat
  object_types : List String
  last_modified : Nat
deriving Repr, DecidableEq

/-- `getLayerInfo`'s per-layer record: count, `obj.type || 'path'` per
object, and `Math.max(...timestamps)` (0 for an empty layer). -/
def layerInfoOf (objs : List DrawObj) : LayerEntryInfo :=
  { object_count := objs.length
    object_types := objs.map (fun o => o.otype.getD "path")
    last_modified :=
      if objs.length > 0 then (objs.map (fun o => o.timestamp)).foldl max 0 else 0 }

/-- `CanvasManager.getLayerInfo`: the per-layer info keyed by agent id. -/
def getLayerInfo (layers : LayersMap) : List (String × LayerEntryInfo) :=
  layers.map (fun kv => (kv.1, layerInfoOf kv.2))

/-- The request record constructed by `CanvasManager.requestModification`. -/
structure ModRequest where
  from_agent_id : String
  to_agent_id : String
  request_type : String
  rdata : String
  timestamp : Nat
deriving Repr, DecidableEq

/-- Payload of an action handed to `sendCanvasAction`. -/
inductive APayload where
  | emptyData : APayload
  | drawData (oid : Nat) : APayload
  | clearedAgent (cleared_agent_id : String) : APayload
  | modReq (r : ModRequest) : APayload
deriving Repr, DecidableEq

/-- An action message handed to `sendCanvasAction` (wrapped there into a
`{type: 'canvas_action', action: ...}` channel message). -/
structure ActionData where
  agent_id : String
  action_type : String
  data : APayload
deriving Repr, DecidableEq

/-- Session-local state of `CanvasManager`: the drawing flag, the ambient
`currentAgent` (`null` initially, hence `Option`), the layer store, the undo
stack of snapshots, the mermaid container elements present in the DOM, and
the list of actions handed to `sendCanvasAction` (the action channel). -/
structure CanvasState where
  isDrawing : Bool
  currentAgent : Option String
  layers : LayersMap
  undoStack : List Nat
  domElems : List Nat
  outbox : List ActionData
deriving Repr, DecidableEq

/-- `CanvasManager` constructor + `init`: `currentAgent = null`, layer store
holding only the empty human layer. -/
def initCanvas : CanvasState :=
  { isDrawing := false
    currentAgent := none
    layers := [("human", [])]
    undoStack := []
    domElems := []
    outbox := [] }

/-- The `e.target` of a `mouse:down` event, as far as the ownership gate
reads it: `e.target.data.agent` when the target exists and carries a
truthy agent tag (`none` models a missing target, missing `data`, or a
falsy agent field). -/
structure MouseTarget where
  dataAgent : Option String
deriving Repr, DecidableEq

/-- The ownership-gate condition of the second `mouse:down` handler
(canvas.js lines 72-81): the event is blocked (`stopPropagation`) iff the
target carries an agent tag, `objectAgent !== this.currentAgent`, and
`this.currentAgent !== 'human'`. -/
def gateBlocks (current : Option String) (target : Option MouseTarget) : Bool :=
  match target with
  | none => false
  | some t =>
    match t.dataAgent with
    | none => false
    | some a => decide (some a ≠ current) && decide (current ≠ some "human")

/-- A full `mouse:down` event: Fabric fires the registered handlers in
registration order, so the first handler (canvas.js lines 34-37) sets
`isDrawing = true` and `currentAgent = 'human'` before the ownership gate
(lines 72-81) runs.  Returns the updated state and whether the gate blocked
the event. -/
def mouseDown (s : CanvasState) (target : Option MouseTarget) : CanvasState × Bool :=
  let s1 := { s with isDrawing := true, currentAgent := some "human" }
  (s1, gateBlocks s1.currentAgent target)

/-- Pretty-printing of a JS `Map` key that may be `null` (object keys in
`getLayerInfo` coerce `null` to the string `"null"`); used to keep the
layer store keyed by strings. -/
def jsKey : Option String → String
  | some a => a
  | none => "null"

/-- The `path:created` handler (canvas.js lines 44-69): tag the path with
`{agent: currentAgent || 'human', timestamp}`, push it onto
`layers[currentAgent]` (creating the layer if missing), and send a `draw`
action when `currentAgent !== 'human'`. -/
def pathCreated (s : CanvasState) (oid ts : Nat) : CanvasState :=
  let obj : DrawObj :=
    { oid := oid
      otype := some "path"
      agentTag := some ((s.currentAgent).getD "human")
      timestamp := ts }
  let key := jsKey s.currentAgent
  let objs := (alistLookup s.layers key).getD []
  let s1 := { s with layers := alistSet s.layers key (objs ++ [obj]) }
  if s.currentAgent ≠ some "human" then
    { s1 with outbox := s1.outbox ++
        [{ agent_id := key, action_type := "draw", data := APayload.drawData oid }] }
  else s1

/-- `CanvasManager.setAgentDrawingMode`: set `currentAgent`, ensure the
agent's layer exists (brush colour is rendering state, out of scope). -/
def setAgentDrawingMode (s : CanvasState) (agentId : String) : CanvasState :=
  let s1 := { s with currentAgent := some agentId }
  if alistHas s1.layers agentId then s1
  else { s1 with layers := alistSet s1.layers agentId [] }

/-- `CanvasManager.addAgentDrawing`: enliven the path, tag it with
`{agent: agentId, timestamp}`, add it to the canvas and push it onto
`layers[agentId]` (creating the layer if missing).  The enlivened path's
`type` is `"path"`. -/
def addAgentDrawing (s : CanvasState) (agentId : String) (oid ts : Nat) : CanvasState :=
  let obj : DrawObj :=
    { oid := oid, otype := some "path", agentTag := some agentId, timestamp := ts }
  let objs := (alistLookup s.layers agentId).getD []
  { s with layers := alistSet s.layers agentId (objs ++ [obj]) }

/-- `CanvasManager.addMermaidDiagram`: create the DOM container (tracked in
`domElems` by its id), then push `{type: 'mermaid', id, content, position}` —
a record with no `data` field — onto `layers[agentId]`. -/
def addMermaidDiagram (s : CanvasState) (agentId : String) (elemId : Nat) : CanvasState :=
  let obj : DrawObj :=
    { oid := elemId, otype := some "mermaid", agentTag := none, timestamp := 0 }
  let objs := (alistLookup s.layers agentId).getD []
  { s with
      domElems := s.domElems ++ [elemId]
      layers := alistSet s.layers agentId (objs ++ [obj]) }

/-- `CanvasManager.removeMermaidDiagram`: `document.getElementById(id)` and,
if the element exists, `element.remove()`.  Nothing else: the layer store is
not consulted. -/
def removeMermaidDiagram (s : CanvasState) (elemId : Nat) : CanvasState :=
  if elemId ∈ s.domElems then { s with domElems := s.domElems.erase elemId } else s

/-- `CanvasManager.clearAgentLayer`: when the layer exists, remove its
objects from the canvas, reset the layer to `[]`, and send one
`layer_cleared` action with `agent_id: 'system'`; when the layer is absent,
do nothing. -/
def clearAgentLayer (s : CanvasState) (agentId : String) : CanvasState :=
  if alistHas s.layers agentId then
    { s with
        layers := alistSet s.layers agentId []
        outbox := s.outbox ++
          [{ agent_id := "system", action_type := "layer_cleared"
             data := APayload.clearedAgent agentId }] }
  else s

/-- `CanvasManager.clearCanvas`: clear the canvas, reset the layer store to
the sole empty human layer, empty the undo stack, send one `clear` action. -/
def clearCanvas (s : CanvasState) : CanvasState :=
  { s with
      layers := [("human", [])]
      undoStack := []
      outbox := s.outbox ++
        [{ agent_id := "system", action_type := "clear", data := APayload.emptyData }] }

/-- `CanvasManager.requestModification`: build the request record, send one
`modification_request` action, and return the request.  The layer store is
not touched. -/
def canvasRequestModification (s : CanvasState) (fromAgentId toAgentId : String)
    (requestData : String) (ts : Nat) : CanvasState × ModRequest :=
  let request : ModRequest :=
    { from_agent_id := fromAgentId
      to_agent_id := toAgentId
      request_type := "modification"
      rdata := requestData
      timestamp := ts }
  ({ s with outbox := s.outbox ++
      [{ agent_id := fromAgentId, action_type := "modification_request"
         data := APayload.modReq request }] },
   request)

/-- An agent descriptor as held by `AgentManager.agents`. -/
structure Agent where
  aid : String
  name : String
  color : String
  is_active : Bool
deriving Repr, DecidableEq

/-- The agent registry: `id -> agent` (JS `Map`). -/
abbrev AgentsMap := List (String × Agent)

/-- `AgentManager.requestModification` (conversation.js lines 735-752):
look up both agents; when either is missing, log an error and return
`null`; otherwise delegate to `CanvasManager.requestModification` and
return its request.  No `fromAgentId != toAgentId` check appears. -/
def agentRequestModification (agents : AgentsMap) (cs : CanvasState)
    (fromAgentId toAgentId : String) (requestData : String) (ts : Nat) :
    CanvasState × Option ModRequest :=
  match alistLookup agents fromAgentId, alistLookup agents toAgentId with
  | some _, some _ =>
    let (cs1, request) := canvasRequestModification cs fromAgentId toAgentId requestData ts
    (cs1, some request)
  | _, _ => (cs, none)

/-- Session state of `WebSocketManager`: `ws` is `none` when `this.ws` is
`null` and `some rs` for a socket whose `readyState` is `rs`; the remaining
fields are the constructor's. -/
structure WSState where
  ws : Option Nat
  reconnectAttempts : Nat
  maxReconnectAttempts : Nat
  reconnectDelay : Nat
  isConnected : Bool
deriving Repr, DecidableEq

/-- `WebSocket.OPEN`. -/
def wsOPEN : Nat := 1

/-- The `WebSocketManager` constructor state. -/
def initWS : WSState :=
  { ws := none
    reconnectAttempts := 0
    maxReconnectAttempts := 5
    reconnectDelay := 1000
    isConnected := false }

/-- `WebSocketManager.sendMessage`: when `isConnected && ws && ws.readyState
=== WebSocket.OPEN`, serialize and send inside `try/catch`, returning `true`
on success and `false` when `send` raised; otherwise log a warning and
return `false`.  `sendOk` models whether the underlying `ws.send` call
succeeds (i.e. raises no exception).  The method mutates no field, so the
state is returned unchanged. -/
def sendMessage (w : WSState) (sendOk : Bool) : Bool × WSState :=
  if w.isConnected && (match w.ws with | some rs => rs == wsOPEN | none => false) then
    if sendOk then (true, w) else (false, w)
  else
    (false, w)

/-- `WebSocketManager.handleConnectionError`: while
`reconnectAttempts < maxReconnectAttempts`, increment the counter and
schedule `connect()` after `reconnectDelay * reconnectAttempts` (the
counter's value after the increment); at the ceiling, schedule nothing and
surface 'Max reconnection attempts reached'.  The second component is the
scheduled delay, `none` when no reconnect is scheduled. -/
def handleConnectionError (w : WSState) : WSState × Option Nat :=
  if w.reconnectAttempts < w.maxReconnectAttempts then
    let w1 := { w with reconnectAttempts := w.reconnectAttempts + 1 }
    (w1, some (w.reconnectDelay * w1.reconnectAttempts))
  else
    (w, none)

/-- One connection failure event (`onclose` with `wasClean` false, or
`onerror`): set `isConnected = false`, update the status display, then run
`handleConnectionError`. -/
def connectionFailure (w : WSState) : WSState × Option Nat :=
  handleConnectionError { w with isConnected := false }

/-- `n` consecutive connection failures with no successful `onopen` in
between; collects the scheduled reconnect delays in order. -/
def failuresFrom (w : WSState) : Nat → WSState × List Nat
  | 0 => (w, [])
  | n + 1 =>
    let fst := connectionFailure w
    let rest := failuresFrom fst.1 n
    (rest.1, fst.2.toList ++ rest.2)

/-- Inbound channel messages, restricted to the kinds that touch the agent
registry or the layer store.  `agent_added`, `agent_updated` and
`agent_responses` mutate only the DOM/conversation log; `canvas_action` and
`modification_request` delegate to the canvas handlers modelled above
(`addAgentDrawing`, `addMermaidDiagram`, `clearCanvas`) or to the
observational `handleModificationRequest`. -/
inductive InMsg where
  | agent_removed (agent_id : String) : InMsg
  | layer_cleared (agent_id : String) : InMsg
  | successMsg (message : String) : InMsg
  | errorMsg (message : String) : InMsg
  | unknown (t : String) : InMsg
deriving Repr, DecidableEq

/-- Combined session state: the agent registry and the canvas manager. -/
structure SessionState where
  agents : AgentsMap
  canvas : CanvasState
deriving Repr, DecidableEq

/-- `WebSocketManager.handleMessage` dispatch over the modelled message
kinds: `agent_removed` deletes the registry entry, `layer_cleared` runs
`canvasManager.clearAgentLayer(message.agent_id)` (plus a log line),
`success`/`error`/unknown types only log. -/
def handleMessage (st : SessionState) (msg : InMsg) : SessionState :=
  match msg with
  | InMsg.agent_removed aid =>
      { st with agents := st.agents.filter (fun kv => kv.1 ≠ aid) }
  | InMsg.layer_cleared aid =>
      { st with canvas := clearAgentLayer st.canvas aid }
  | InMsg.successMsg _ => st
  | InMsg.errorMsg _ => st
  | InMsg.unknown _ => st

/-- The layer-store mutating operations of the repository, as a closed
alphabet of events: a local drawing gesture (`mouse:down` handlers followed
by `path:created`), a remote `draw` application, mermaid insertion and
removal, per-layer and full-canvas clears, and entering an agent's drawing
mode. -/
inductive COp where
  | drawGesture (target : Option MouseTarget) (oid ts : Nat) : COp
  | remoteDraw (agentId : String) (oid ts : Nat) : COp
  | mermaidInsert (agentId : String) (elemId : Nat) : COp
  | mermaidRemove (elemId : Nat) : COp
  | layerClear (agentId : String) : COp
  | canvasClear : COp
  | drawMode (agentId : String) : COp
deriving Repr, DecidableEq

/-- Apply one operation to the canvas state. -/
def stepOp (s : CanvasState) : COp → CanvasState
  | COp.drawGesture target oid ts => pathCreated (mouseDown s target).1 oid ts
  | COp.remoteDraw agentId oid ts => addAgentDrawing s agentId oid ts
  | COp.mermaidInsert agentId elemId => addMermaidDiagram s agentId elemId
  | COp.mermaidRemove elemId => removeMermaidDiagram s elemId
  | COp.layerClear agentId => clearAgentLayer s agentId
  | COp.canvasClear => clearCanvas s
  | COp.drawMode agentId => setAgentDrawingMode s agentId

/-- Run a sequence of operations. -/
def runOps (s : CanvasState) (ops : List COp) : CanvasState :=
  ops.foldl stepOp s

/-! ## Association-list lemmas -/

theorem alistLookup_set_self {β : Type} (m : List (String × β)) (k : String) (v : β) :
    alistLookup (alistSet m k v) k = some v := by
  induction m with
  | nil => simp [alistSet, alistLookup]
  | cons kv rest ih =>
    obtain ⟨a, w⟩ := kv
    by_cases h : a = k
    · subst h
      simp [alistSet, alistLookup]
    · simp [alistSet, alistLookup, h, ih]

theorem alistLookup_set_ne {β : Type} (m : List (String × β)) (k k' : String) (v : β)
    (h : k ≠ k') : alistLookup (alistSet m k v) k' = alistLookup m k' := by
  induction m with
  | nil => simp [alistSet, alistLookup, h]
  | cons kv rest ih =>
    obtain ⟨a, w⟩ := kv
    by_cases ha : a = k
    · subst ha
      simp [alistSet, alistLookup, h]
    · simp [alistSet, alistLookup, ha, ih]

theorem alistSet_set_self {β : Type} (m : List (String × β)) (k : String) (v v' : β) :
    alistSet (alistSet m k v) k v' = alistSet m k v' := by
  induction m with
  | nil => simp [alistSet]
  | cons kv rest ih =>
    obtain ⟨a, w⟩ := kv
    by_cases ha : a = k
    · subst ha
      simp [alistSet]
    · simp [alistSet, ha, ih]

theorem alistHas_set_of_has {β : Type} (m : List (String × β)) (k k' : String) (v : β)
    (h : alistHas m k' = true) : alistHas (alistSet m k v) k' = true := by
  by_cases hk : k = k'
  · subst hk
    simp [alistHas, alistLookup_set_self]
  · simpa [alistHas, alistLookup_set_ne m k k' v hk] using h

theorem getLayerInfo_lookup (m : LayersMap) (k : String) :
    alistLookup (getLayerInfo m) k = (alistLookup m k).map layerInfoOf := by
  induction m with
  | nil => simp [getLayerInfo, alistLookup]
  | cons kv rest ih =>
    obtain ⟨a, objs⟩ := kv
    by_cases ha : a = k
    · subst ha
      simp [getLayerInfo, alistLookup]
    · simpa [getLayerInfo, alistLookup, ha] using ih

/-! ## Concrete states used as witnesses and counterexamples -/

/-- A path object owned by `agent-1`. -/
def exObj : DrawObj :=
  { oid := 1, otype := some "path", agentTag := some "agent-1", timestamp := 3 }

/-- A canvas state whose store holds the empty human layer and one
`agent-1` layer containing `exObj`. -/
def exCanvas : CanvasState :=
  { initCanvas with layers := [("human", []), ("agent-1", [exObj])] }

/-- Session state wrapping `exCanvas` with an empty registry. -/
def exSession : SessionState := { agents := [], canvas := exCanvas }

/-- A registered agent. -/
def exAgent : Agent :=
  { aid := "agent-1", name := "Agent One", color := "#3b82f6", is_active := true }

/-- A registry holding only `agent-1`. -/
def exAgents : AgentsMap := [("agent-1", exAgent)]

/-! ## Claim theorems -/

/-- C1: the claim states that every attempted pointer interaction with an
object owned by `B ≠ ActiveOwner A` is rejected.  The code violates it: the
first `mouse:down` handler resets `currentAgent` to `'human'` before the
ownership gate runs, and the gate exempts `currentAgent === 'human'`, so no
`mouse:down` event is ever blocked — for every prior state (any ActiveOwner)
and every target, the gate lets the event through; the layer store itself is
left unchanged by the `mouse:down` handlers. -/
theorem C1_mouse_down_never_rejected (s : CanvasState) (target : Option MouseTarget) :
    (mouseDown s target).2 = false ∧ (mouseDown s target).1.layers = s.layers := by
  refine ⟨?_, rfl⟩
  cases target with
  | none => rfl
  | some t =>
    cases h : t.dataAgent with
    | none => simp [mouseDown, gateBlocks, h]
    | some a => simp [mouseDown, gateBlocks, h]

/-- C2 counterexample: an inbound `layer_cleared` message for an agent whose
layer entry does not exist in the store emits zero `layer_cleared`
broadcasts, not exactly one as the claim states. -/
theorem C2_counterexample :
    (handleMessage { agents := [], canvas := initCanvas }
      (InMsg.layer_cleared "agent-1")).canvas.outbox = [] := by
  rfl

/-- C2 (amended): when the agent's layer entry exists, the inbound
`layer_cleared` handler resets that layer to empty and hands exactly one
`layer_cleared` broadcast to the channel; when the entry is absent, the
handler leaves the session state unchanged and emits nothing. -/
theorem C2_layer_cleared_handler (st : SessionState) (aid : String) :
    (alistHas st.canvas.layers aid = true →
      (handleMessage st (InMsg.layer_cleared aid)).canvas.layers =
        alistSet st.canvas.layers aid [] ∧
      (handleMessage st (InMsg.layer_cleared aid)).canvas.outbox =
        st.canvas.outbox ++
          [{ agent_id := "system", action_type := "layer_cleared"
             data := APayload.clearedAgent aid }]) ∧
    (alistHas st.canvas.layers aid = false →
      handleMessage st (InMsg.layer_cleared aid) = st) := by
  constructor
  · intro h
    constructor <;> simp [handleMessage, clearAgentLayer, h]
  · intro h
    simp [handleMessage, clearAgentLayer, h]

/-- Witness for C2: the amended statement evaluated on `exSession`, whose
store has an `agent-1` entry. -/
theorem C2_layer_cleared_handler_witness :
    (handleMessage exSession (InMsg.layer_cleared "agent-1")).canvas.layers =
      alistSet exSession.canvas.layers "agent-1" [] ∧
    (handleMessage exSession (InMsg.layer_cleared "agent-1")).canvas.outbox =
      exSession.canvas.outbox ++
        [{ agent_id := "system", action_type := "layer_cleared"
           data := APayload.clearedAgent "agent-1" }] :=
  (C2_layer_cleared_handler exSession "agent-1").1 (by rfl)

/-- C3 counterexample: with a single registered agent, a request with
`fromId = toId = "agent-1"` is not rejected — the call returns a constructed
request (not the claimed null) and hands one broadcast to the channel,
although the claim says the `fromId != toId` validation must fail it. -/
theorem C3_counterexample :
    ((agentRequestModification exAgents initCanvas "agent-1" "agent-1" "resize" 9).2).isSome
        = true ∧
    (agentRequestModification exAgents initCanvas "agent-1" "agent-1" "resize" 9).1.outbox.length
        = 1 := by
  constructor <;> rfl

/-- C3 (amended): `requestModification` validates only that both ids name
registered agents — it performs no `fromId != toId` check.  When either id
is unknown it returns null and leaves the state (in particular the outbox)
unchanged; when both exist — including when `fromId = toId` — it returns
the constructed request and appends exactly one `modification_request`
action to the outbox. -/
theorem C3_requestModification (agents : AgentsMap) (cs : CanvasState)
    (fromId toId d : String) (ts : Nat) :
    ((alistLookup agents fromId = none ∨ alistLookup agents toId = none) →
      agentRequestModification agents cs fromId toId d ts = (cs, none)) ∧
    ((alistLookup agents fromId).isSome = true →
      (alistLookup agents toId).isSome = true →
      (agentRequestModification agents cs fromId toId d ts).2 =
        some { from_agent_id := fromId, to_agent_id := toId
               request_type := "modification", rdata := d, timestamp := ts } ∧
      (agentRequestModification agents cs fromId toId d ts).1 =
        { cs with outbox := cs.outbox ++
            [{ agent_id := fromId, action_type := "modification_request"
               data := APayload.modReq
                 { from_agent_id := fromId, to_agent_id := toId
                   request_type := "modification", rdata := d, timestamp := ts } }] }) := by
  cases hf : alistLookup agents fromId with
  | none =>
    refine ⟨fun _ => ?_, fun hf' _ => ?_⟩
    · cases ht : alistLookup agents toId <;> simp [agentRequestModification, hf, ht]
    · simp at hf'
  | some af =>
    cases ht : alistLookup agents toId with
    | none =>
      refine ⟨fun _ => ?_, fun _ ht' => ?_⟩
      · simp [agentRequestModification, hf, ht]
      · simp at ht'
    | some at2 =>
      refine ⟨fun habs => ?_, fun _ _ => ?_⟩
      · rcases habs with habs | habs <;> cases habs
      · constructor <;> simp [agentRequestModification, hf, ht, canvasRequestModification]

/-- Witness for C3: the amended statement evaluated at the concrete
registry `exAgents` with `fromId = toId = "agent-1"`. -/
theorem C3_requestModification_witness :
    (agentRequestModification exAgents initCanvas "agent-1" "agent-1" "resize" 9).2 =
      some { from_agent_id := "agent-1", to_agent_id := "agent-1"
             request_type := "modification", rdata := "resize", timestamp := 9 } :=
  ((C3_requestModification exAgents initCanvas "agent-1" "agent-1" "resize" 9).2
    (by rfl) (by rfl)).1

/-- C4: `requestModification` never mutates the layer store — both the
`CanvasManager` method and the validating `AgentManager` wrapper return a
state whose layers are exactly the input layers, whether or not validation
succeeds. -/
theorem C4_requestModification_frame (agents : AgentsMap) (cs : CanvasState)
    (fromId toId d : String) (ts : Nat) :
    (canvasRequestModification cs fromId toId d ts).1.layers = cs.layers ∧
    (agentRequestModification agents cs fromId toId d ts).1.layers = cs.layers := by
  refine ⟨rfl, ?_⟩
  unfold agentRequestModification
  cases alistLookup agents fromId <;> cases alistLookup agents toId <;>
    simp [canvasRequestModification]

/-- Closed form of `n` consecutive failures from an arbitrary attempt
counter, for the constructor's ceiling (5) and base delay (1000): the
scheduled delays are `1000 * k` for `k` ranging over the attempt numbers
actually used, the counter advances to `min (a + n) 5`, and the connection
flag is down once at least one failure occurred. -/
theorem failuresFrom_closed (n : Nat) (w : WSState)
    (hmax : w.maxReconnectAttempts = 5) (hd : w.reconnectDelay = 1000) :
    (failuresFrom w n).2 =
      (List.range' (w.reconnectAttempts + 1) (min n (5 - w.reconnectAttempts))).map
        (fun k => 1000 * k) ∧
    (failuresFrom w n).1.reconnectAttempts =
      w.reconnectAttempts + min n (5 - w.reconnectAttempts) ∧
    (failuresFrom w n).1.maxReconnectAttempts = 5 ∧
    (failuresFrom w n).1.reconnectDelay = 1000 ∧
    (failuresFrom w n).1.isConnected = (if n = 0 then w.isConnected else false) := by
  induction n generalizing w with
  | zero => simp [failuresFrom, hmax, hd]
  | succ n ih =>
    obtain ⟨ws0, a, ma, rd, ic⟩ := w
    simp only at hmax hd
    subst hmax
    subst hd
    by_cases h : a < 5
    · have hstep : connectionFailure ⟨ws0, a, 5, 1000, ic⟩ =
          (⟨ws0, a + 1, 5, 1000, false⟩, some (1000 * (a + 1))) := by
        simp [connectionFailure, handleConnectionError, h]
      have hrec := ih ⟨ws0, a + 1, 5, 1000, false⟩ rfl rfl
      simp only [WSState.mk.injEq] at hrec
      have hmin : min (n + 1) (5 - a) = min n (5 - (a + 1)) + 1 := by omega
      have hrange : List.range' (a + 1) (min n (5 - (a + 1)) + 1) =
          (a + 1) :: List.range' (a + 1 + 1) (min n (5 - (a + 1))) :=
        List.range'_succ _ _ _
      refine ⟨?_, ?_, ?_, ?_, ?_⟩
      · show (connectionFailure ⟨ws0, a, 5, 1000, ic⟩).2.toList ++
            (failuresFrom (connectionFailure ⟨ws0, a, 5, 1000, ic⟩).1 n).2 = _
        rw [hstep]
        simp only [Option.toList_some, List.singleton_append]
        rw [hrec.1, hmin, hrange]
        simp
      · show (failuresFrom (connectionFailure ⟨ws0, a, 5, 1000, ic⟩).1 n).1.reconnectAttempts = _
        rw [hstep]
        have := hrec.2.1
        simp only at this ⊢
        omega
      · show (failuresFrom (connectionFailure ⟨ws0, a, 5, 1000, ic⟩).1 n).1.maxReconnectAttempts = _
        rw [hstep]
        exact hrec.2.2.1
      · show (failuresFrom (connectionFailure ⟨ws0, a, 5, 1000, ic⟩).1 n).1.reconnectDelay = _
        rw [hstep]
        exact hrec.2.2.2.1
      · show (failuresFrom (connectionFailure ⟨ws0, a, 5, 1000, ic⟩).1 n).1.isConnected = _
        rw [hstep]
        have := hrec.2.2.2.2
        simp only at this ⊢
        rw [this]
        simp
    · have hstep : connectionFailure ⟨ws0, a, 5, 1000, ic⟩ =
          (⟨ws0, a, 5, 1000, false⟩, none) := by
        simp [connectionFailure, handleConnectionError, h]
      have hrec := ih ⟨ws0, a, 5, 1000, false⟩ rfl rfl
      have hz : 5 - a = 0 := by omega
      refine ⟨?_, ?_, ?_, ?_, ?_⟩
      · show (connectionFailure ⟨ws0, a, 5, 1000, ic⟩).2.toList ++
            (failuresFrom (connectionFailure ⟨ws0, a, 5, 1000, ic⟩).1 n).2 = _
        rw [hstep]
        simp only [Option.toList_none, List.nil_append]
        rw [hrec.1]
        simp only at hrec ⊢
        simp [hz]
      · show (failuresFrom (connectionFailure ⟨ws0, a, 5, 1000, ic⟩).1 n).1.reconnectAttempts = _
        rw [hstep]
        have := hrec.2.1
        simp only at this ⊢
        omega
      · show (failuresFrom (connectionFailure ⟨ws0, a, 5, 1000, ic⟩).1 n).1.maxReconnectAttempts = _
        rw [hstep]
        exact hrec.2.2.1
      · show (failuresFrom (connectionFailure ⟨ws0, a, 5, 1000, ic⟩).1 n).1.reconnectDelay = _
        rw [hstep]
        exact hrec.2.2.2.1
      · show (failuresFrom (connectionFailure ⟨ws0, a, 5, 1000, ic⟩).1 n).1.isConnected = _
        rw [hstep]
        have := hrec.2.2.2.2
        simp only at this ⊢
        rw [this]
        simp

/-- C5: starting from the constructor state, `n` consecutive connection
failures schedule exactly `min n 5` reconnect attempts, the `k`-th of them
after `k * reconnectDelay` (`k * 1000` for `k = 1..5`); once five reconnect
attempts have failed (`n ≥ 5`), the attempt counter is pinned at 5, a
further failure schedules nothing, and the connection state is down
(`isConnected = false`, surfaced as the offline status). -/
theorem C5_reconnect_bound (n : Nat) :
    (failuresFrom initWS n).2 =
      (List.range' 1 (min n 5)).map (fun k => 1000 * k) ∧
    (failuresFrom initWS n).2.length = min n 5 ∧
    (failuresFrom initWS n).1.reconnectAttempts = min n 5 ∧
    (5 ≤ n →
      (connectionFailure (failuresFrom initWS n).1).2 = none ∧
      (failuresFrom initWS n).1.isConnected = false) := by
  have hc := failuresFrom_closed n initWS rfl rfl
  have h0 : initWS.reconnectAttempts = 0 := rfl
  refine ⟨?_, ?_, ?_, fun h5 => ⟨?_, ?_⟩⟩
  · simpa [h0] using hc.1
  · rw [hc.1]
    simp [h0]
  · simpa [h0] using hc.2.1
  · have ha : (failuresFrom initWS n).1.reconnectAttempts = 5 := by
      have := hc.2.1
      omega
    simp [connectionFailure, handleConnectionError, hc.2.2.1, ha]
  · rw [hc.2.2.2.2]
    have : n ≠ 0 := by omega
    simp [this]

/-- Witness for C5: six consecutive failures from the constructor state
schedule the five delays `1000..5000` and a further failure schedules no
reconnect. -/
theorem C5_reconnect_bound_witness :
    (failuresFrom initWS 6).2 = [1000, 2000, 3000, 4000, 5000] ∧
    (connectionFailure (failuresFrom initWS 6).1).2 = none := by
  refine ⟨?_, ((C5_reconnect_bound 6).2.2.2 (by omega)).1⟩
  have h := (C5_reconnect_bound 6).1
  simpa [List.range'] using h

/-- C6 counterexample: clearing a layer id that was never created leaves
`getLayerInfo()` without any entry for that id, so `getLayerInfo()[id].count`
is not 0 — the lookup yields nothing at all. -/
theorem C6_counterexample :
    alistLookup (getLayerInfo (clearAgentLayer initCanvas "agent-1").layers) "agent-1" =
      none := by
  rfl

/-- C6 (amended): whenever the store has an entry for `id`, `clearLayer(id)`
leaves `getLayerInfo()[id]` at count 0 (no object types, last-modified 0);
re-clearing is idempotent on the layer store; and clearing an id with no
entry is a no-op on the whole state, not an error. -/
theorem C6_clearLayer (s : CanvasState) (agentId : String) :
    (alistHas s.layers agentId = true →
      alistLookup (getLayerInfo (clearAgentLayer s agentId).layers) agentId =
        some { object_count := 0, object_types := [], last_modified := 0 }) ∧
    (clearAgentLayer (clearAgentLayer s agentId) agentId).layers =
      (clearAgentLayer s agentId).layers ∧
    (alistHas s.layers agentId = false → clearAgentLayer s agentId = s) := by
  refine ⟨fun h => ?_, ?_, fun h => ?_⟩
  · simp [clearAgentLayer, h, getLayerInfo_lookup, alistLookup_set_self, layerInfoOf]
  · by_cases h : alistHas s.layers agentId = true
    · have h3 : alistHas (alistSet s.layers agentId ([] : List DrawObj)) agentId = true := by
        simp [alistHas, alistLookup_set_self]
      simp [clearAgentLayer, h, h3, alistSet_set_self]
    · have h0 : alistHas s.layers agentId = false := by
        cases hv : alistHas s.layers agentId
        · rfl
        · exact absurd hv h
      simp [clearAgentLayer, h0]
  · simp [clearAgentLayer, h]

/-- Witness for C6: the amended statement evaluated on `exCanvas`, whose
store has a nonempty `agent-1` layer. -/
theorem C6_clearLayer_witness :
    alistLookup (getLayerInfo (clearAgentLayer exCanvas "agent-1").layers) "agent-1" =
      some { object_count := 0, object_types := [], last_modified := 0 } :=
  (C6_clearLayer exCanvas "agent-1").1 (by rfl)

/-- C7: evaluation of the code at the failing input — inserting a mermaid
diagram on the human layer and then removing it with `removeMermaidDiagram`
leaves no surviving object on the surface, yet
`getLayerInfo()["human"].object_count` still reports 1, because
`removeMermaidDiagram` never updates the layer store.  The claimed equation
"count = objects added and not yet removed" fails (1 vs 0). -/
theorem C7_count_ignores_removal :
    ((alistLookup (getLayerInfo (runOps initCanvas
        [COp.mermaidInsert "human" 7, COp.mermaidRemove 7]).layers) "human").map
      (fun i => i.object_count) = some 1) ∧
    (runOps initCanvas [COp.mermaidInsert "human" 7, COp.mermaidRemove 7]).domElems
      = [] := by
  constructor <;> rfl

/-- C8: evaluation of `removeMermaidDiagram` — for every state and id it
removes the DOM element from the surface when present and is a silent no-op
otherwise, but it never touches the layer store or the outbox; in
particular the object is never removed from the owner's layer, contrary to
the claim. -/
theorem C8_removeMermaid (s : CanvasState) (elemId : Nat) :
    (removeMermaidDiagram s elemId).layers = s.layers ∧
    (removeMermaidDiagram s elemId).outbox = s.outbox ∧
    (elemId ∈ s.domElems →
      (removeMermaidDiagram s elemId).domElems = s.domElems.erase elemId) ∧
    (elemId ∉ s.domElems → removeMermaidDiagram s elemId = s) := by
  unfold removeMermaidDiagram
  by_cases h : elemId ∈ s.domElems <;> simp [h]

/-- Witness for C8: after inserting mermaid element 7 on the human layer,
removing it erases the DOM element while the layer store stays equal. -/
theorem C8_removeMermaid_witness :
    (removeMermaidDiagram (addMermaidDiagram initCanvas "human" 7) 7).layers =
      (addMermaidDiagram initCanvas "human" 7).layers ∧
    (removeMermaidDiagram (addMermaidDiagram initCanvas "human" 7) 7).domElems =
      (addMermaidDiagram initCanvas "human" 7).domElems.erase 7 :=
  ⟨(C8_removeMermaid (addMermaidDiagram initCanvas "human" 7) 7).1,
   (C8_removeMermaid (addMermaidDiagram initCanvas "human" 7) 7).2.2.1 (by decide)⟩

/-- Every single operation preserves the presence of the `"human"` entry in
the layer store. -/
theorem stepOp_preserves_human (s : CanvasState) (op : COp)
    (h : alistHas s.layers "human" = true) :
    alistHas (stepOp s op).layers "human" = true := by
  cases op with
  | drawGesture target oid ts =>
    have hkey : jsKey (mouseDown s target).1.currentAgent = "human" := rfl
    simp only [stepOp, pathCreated, hkey]
    split
    · exact alistHas_set_of_has _ _ _ _ h
    · exact alistHas_set_of_has _ _ _ _ h
  | remoteDraw agentId oid ts =>
    simp only [stepOp, addAgentDrawing]
    exact alistHas_set_of_has _ _ _ _ h
  | mermaidInsert agentId elemId =>
    simp only [stepOp, addMermaidDiagram]
    exact alistHas_set_of_has _ _ _ _ h
  | mermaidRemove elemId =>
    simp only [stepOp, removeMermaidDiagram]
    split
    · exact h
    · exact h
  | layerClear agentId =>
    simp only [stepOp, clearAgentLayer]
    split
    · exact alistHas_set_of_has _ _ _ _ h
    · exact h
  | canvasClear =>
    simp only [stepOp, clearCanvas]
    rfl
  | drawMode agentId =>
    simp only [stepOp, setAgentDrawingMode]
    split
    · exact h
    · exact alistHas_set_of_has _ _ _ _ h

/-- Sequencing preserves the presence of the `"human"` entry. -/
theorem runOps_preserves_human (ops : List COp) (s : CanvasState)
    (h : alistHas s.layers "human" = true) :
    alistHas (runOps s ops).layers "human" = true := by
  induction ops generalizing s with
  | nil => exact h
  | cons op rest ih => exact ih (stepOp s op) (stepOp_preserves_human s op h)

/-- C9: the human layer entry exists from session start onward — `init`
creates it, and after every sequence of layer-store operations (local
drawing gestures, remote draws, mermaid insertions/removals, per-layer
clears including agent-removal cascades, full-canvas clears, drawing-mode
switches) the store still contains an entry keyed `"human"`; the human
layer is only ever emptied, never removed. -/
theorem C9_human_layer_always_present (ops : List COp) :
    alistHas (runOps initCanvas ops).layers "human" = true :=
  runOps_preserves_human ops initCanvas (by rfl)

/-- C10: `sendMessage` is total (the `try/catch` turns a raising `send`
into `false`) and returns `true` exactly when the manager believes itself
connected, the socket exists with `readyState === OPEN`, and the underlying
send raised no error; in every case the session state is returned
unchanged. -/
theorem C10_sendMessage (w : WSState) (sendOk : Bool) :
    ((sendMessage w sendOk).1 = true ↔
      (w.isConnected = true ∧ w.ws = some wsOPEN ∧ sendOk = true)) ∧
    (sendMessage w sendOk).2 = w := by
  constructor
  · unfold sendMessage
    cases hws : w.ws with
    | none => simp [hws]
    | some rs =>
      by_cases hrs : rs = wsOPEN
      · subst hrs
        cases hc : w.isConnected <;> cases sendOk <;> simp [hws, hc]
      · have hbeq : (rs == wsOPEN) = false := by
          simp [hrs]
        cases hc : w.isConnected <;> cases sendOk <;> simp [hws, hc, hbeq, hrs]
  · unfold sendMessage
    split
    · split <;> rfl
    · rfl

end CompanionAgent
